import Mathlib

/-!
Verification of mcp-netutil (an MCP JSON-RPC 2.0 server exposing network
diagnostic tools) against its natural-language specification.

This file shallowly embeds the parts of the Go source the claims are about:

* `pkg/latency` — the `parsePingOutput` parser and the `Run` driver;
* `pkg/traceroute` — `validateTarget` and `Run`;
* `pkg/cache` — the SQLite record store (`RecordLatency`, `RecordTraceroute`,
  `RecordSystemStats`, `QueryRecords`), with the database modelled as lists of
  typed rows and SQL `WHERE`/`ORDER BY`/`LIKE` semantics made explicit;
* `main.go` — the JSON-RPC dispatcher `handleRequest`, the stdio loop's
  per-request step, the SSE POST worker, and a small transition system for the
  SSE session manager's registration / teardown / enqueue interleavings.

Effectful library calls (subprocess execution via `exec.CommandContext`,
`net.ParseIP`, `gopsutil` stats, `kill`) are passed in as oracle functions in a
`HandlerEnv`, so theorems quantify over every possible behaviour of the
environment.  Machine integers do not overflow in any modelled code path, so
integers are `Int`/`Nat`.
-/

namespace McpNetutil

/-! ## String order and pattern helpers

SQLite compares `TEXT` values with `memcmp` over the UTF-8 encoding; on the
ASCII timestamp strings used by the store this is the codepoint-lexicographic
order, embedded here over `List Char`. -/

/-- Lexicographic less-or-equal on char lists by codepoint, the order SQLite
uses for `timestamp >= ?` / `timestamp <= ?` comparisons on ASCII text. -/
def lexLe : List Char → List Char → Bool
  | [], _ => true
  | _ :: _, [] => false
  | a :: as, b :: bs =>
    if a.toNat = b.toNat then lexLe as bs
    else decide (a.toNat < b.toNat)

/-- Lexicographic less-or-equal on strings (SQLite TEXT comparison). -/
def strLe (a b : String) : Bool := lexLe a.toList b.toList

theorem lexLe_total : ∀ as bs, lexLe as bs || lexLe bs as := by
  intro as
  induction as with
  | nil => intro bs; simp [lexLe]
  | cons a as ih =>
    intro bs
    cases bs with
    | nil => simp [lexLe]
    | cons b bs =>
      simp only [lexLe]
      by_cases h : a.toNat = b.toNat
      · simp [h, ih bs]
      · have h' : b.toNat ≠ a.toNat := fun e => h e.symm
        rcases Nat.lt_or_ge a.toNat b.toNat with hlt | hge
        · simp [h, h', hlt]
        · have : b.toNat < a.toNat := lt_of_le_of_ne hge h'
          simp [h, h', this, Nat.not_lt.mpr hge]

theorem lexLe_trans :
    ∀ as bs cs, lexLe as bs = true → lexLe bs cs = true → lexLe as cs = true := by
  intro as
  induction as with
  | nil => intro bs cs _ _; simp [lexLe]
  | cons a as ih =>
    intro bs cs h1 h2
    cases bs with
    | nil => simp [lexLe] at h1
    | cons b bs =>
      cases cs with
      | nil => simp [lexLe] at h2
      | cons c cs =>
        simp only [lexLe] at h1 h2 ⊢
        by_cases hab : a.toNat = b.toNat
        · by_cases hbc : b.toNat = c.toNat
          · simp [hab, hbc] at h1 h2
            simp [hab.trans hbc, ih bs cs h1 h2]
          · simp [hab, hbc] at h1 h2
            simp [hab ▸ hbc, hab ▸ h2]
        · by_cases hbc : b.toNat = c.toNat
          · simp only [if_neg hab] at h1
            have hac : ¬ a.toNat = c.toNat := fun e => hab (e.trans hbc.symm)
            simp [hac, hbc ▸ h1]
          · simp [hab, hbc] at h1 h2
            by_cases hac : a.toNat = c.toNat
            · exact absurd (hac ▸ Nat.lt_trans h1 h2) (lt_irrefl _)
            · simp [hac, Nat.lt_trans h1 h2]

deriving instance DecidableEq for Except

/-- Substring containment (`strings.Contains` / "text contains ..." in the
spec's scenarios): the pattern's characters appear contiguously in `s`. -/
def strContains (s pat : String) : Prop := pat.toList <:+: s.toList

instance (s pat : String) : Decidable (strContains s pat) := by
  unfold strContains; infer_instance

/-- ASCII case folding as performed by SQLite's default `LIKE`: the upper-case
ASCII letters compare equal to their lower-case forms; all other characters
(including non-ASCII) are compared verbatim. -/
def likeFold (c : Char) : Char :=
  if 'A' ≤ c ∧ c ≤ 'Z' then Char.ofNat (c.toNat + 32) else c

/-- All suffixes of a list, longest first (`%` may swallow any prefix). -/
def suffixesOf : List Char → List (List Char)
  | [] => [[]]
  | c :: cs => (c :: cs) :: suffixesOf cs

/-- SQLite `LIKE` pattern matching (no `ESCAPE` clause): `%` matches any
sequence, `_` matches any single character, other characters match up to
ASCII case folding.  This is the semantics of the store's
`target LIKE '%' || ? || '%'` filter. -/
def likeMatch : List Char → List Char → Bool
  | [], s => s.isEmpty
  | '%' :: ps, s => (suffixesOf s).any (fun t => likeMatch ps t)
  | '_' :: ps, s =>
    match s with
    | [] => false
    | _ :: s' => likeMatch ps s'
  | p :: ps, s =>
    match s with
    | [] => false
    | c :: s' => likeFold p = likeFold c && likeMatch ps s'

/-- String form of `likeMatch`. -/
def strLike (pat s : String) : Bool := likeMatch pat.toList s.toList

/-! ## Regex scanning primitives

`pkg/latency/latency.go` matches fixed regular expressions with
`regexp.FindStringSubmatch`, which returns the leftmost match.  Each pattern
used by the parser has the property that every quantified subexpression
(`\d+`, `(?:\.\d+)?`, `[0-9.]+`) is followed by a literal character that the
subexpression class cannot match (`%`, `/`, ` `, `m`), so greedy maximal-run
matching needs no backtracking and is implemented directly.  Leftmost search
is implemented by trying every suffix left to right. -/

/-- Maximal run of ASCII digits (`\d+` up to the first non-digit). -/
def digitRun : List Char → List Char × List Char
  | [] => ([], [])
  | c :: cs =>
    if c.isDigit then
      let (ds, rest) := digitRun cs
      (c :: ds, rest)
    else ([], c :: cs)

/-- Maximal run of characters in the class `[0-9.]`. -/
def numDotRun : List Char → List Char × List Char
  | [] => ([], [])
  | c :: cs =>
    if c.isDigit || c = '.' then
      let (ds, rest) := numDotRun cs
      (c :: ds, rest)
    else ([], c :: cs)

/-- Match a literal character sequence, returning the remainder. -/
def dropLitChars : List Char → List Char → Option (List Char)
  | [], s => some s
  | _ :: _, [] => none
  | l :: ls, c :: cs => if l = c then dropLitChars ls cs else none

/-- Match a literal string, returning the remainder. -/
def dropLit (lit : String) (cs : List Char) : Option (List Char) :=
  dropLitChars lit.toList cs

/-- Leftmost-match search: try the matcher at every suffix, left to right,
as `regexp.FindStringSubmatch` does. -/
def findFirst {α : Type} (tryAt : List Char → Option α) : List Char → Option α
  | [] => tryAt []
  | c :: cs =>
    match tryAt (c :: cs) with
    | some r => some r
    | none => findFirst tryAt cs

/-! ## pkg/latency — ping output parsing (`latency.go`) -/

/-- The parser's structured result (`LatencyResult` in `latency.go`); Go's
zero value `""` stands for an absent field (`jitter` and `packet_loss` carry
`omitempty`). -/
structure LatencyResult where
  avgLatency : String := ""
  jitter : String := ""
  packetLoss : String := ""
deriving DecidableEq, Repr

/-- Anchored match of `(\d+(?:\.\d+)?)% packet loss` (the Unix packet-loss
regex), returning capture group 1.  The optional fraction is greedy; since
the following literal starts with `%`, which is neither a digit nor `.`,
greedy matching is exact. -/
def matchLossUnixAt (cs : List Char) : Option String :=
  let (ds, rest) := digitRun cs
  if ds.isEmpty then none
  else
    let (cap, rest2) :=
      match rest with
      | '.' :: r =>
        let (fs, r2) := digitRun r
        if fs.isEmpty then (ds, rest) else (ds ++ '.' :: fs, r2)
      | _ => (ds, rest)
    if (dropLit "% packet loss" rest2).isSome then some (String.mk cap) else none

/-- Anchored match of `\((\d+)% loss\)` (the Windows packet-loss regex). -/
def matchLossWinAt (cs : List Char) : Option String :=
  match cs with
  | '(' :: r =>
    let (ds, rest) := digitRun r
    if ds.isEmpty then none
    else if (dropLit "% loss)" rest).isSome then some (String.mk ds) else none
  | _ => none

/-- Anchored match of
`(?:rtt|round-trip) min/avg/max/(?:mdev|stddev) = ([0-9.]+)/([0-9.]+)/([0-9.]+)/([0-9.]+) ms`,
returning the four captures (min, avg, max, deviation). -/
def matchRttUnixAt (cs : List Char) : Option (String × String × String × String) :=
  match (dropLit "rtt" cs).or (dropLit "round-trip" cs) with
  | none => none
  | some r1 =>
    match dropLit " min/avg/max/" r1 with
    | none => none
    | some r2 =>
      match (dropLit "mdev" r2).or (dropLit "stddev" r2) with
      | none => none
      | some r3 =>
        match dropLit " = " r3 with
        | none => none
        | some r4 =>
          let (g1, r5) := numDotRun r4
          if g1.isEmpty then none else
          match dropLit "/" r5 with
          | none => none
          | some r6 =>
            let (g2, r7) := numDotRun r6
            if g2.isEmpty then none else
            match dropLit "/" r7 with
            | none => none
            | some r8 =>
              let (g3, r9) := numDotRun r8
              if g3.isEmpty then none else
              match dropLit "/" r9 with
              | none => none
              | some r10 =>
                let (g4, r11) := numDotRun r10
                if g4.isEmpty then none else
                if (dropLit " ms" r11).isSome then
                  some (String.mk g1, String.mk g2, String.mk g3, String.mk g4)
                else none

/-- Anchored match of `Minimum = (\d+)ms, Maximum = (\d+)ms, Average = (\d+)ms`
(the Windows RTT regex), returning (min, max, avg). -/
def matchRttWinAt (cs : List Char) : Option (String × String × String) :=
  match dropLit "Minimum = " cs with
  | none => none
  | some r1 =>
    let (g1, r2) := digitRun r1
    if g1.isEmpty then none else
    match dropLit "ms, Maximum = " r2 with
    | none => none
    | some r3 =>
      let (g2, r4) := digitRun r3
      if g2.isEmpty then none else
      match dropLit "ms, Average = " r4 with
      | none => none
      | some r5 =>
        let (g3, r6) := digitRun r5
        if g3.isEmpty then none else
        if (dropLit "ms" r6).isSome then
          some (String.mk g1, String.mk g2, String.mk g3)
        else none

/-- The `mode` filter at the end of `parsePingOutput`: the final result keeps
only `AvgLatency` unless the mode is `standard`, which also keeps jitter and
packet loss. -/
def modeFilter (result : LatencyResult) (mode : String) : LatencyResult :=
  if mode = "standard" then
    { avgLatency := result.avgLatency
      jitter := result.jitter
      packetLoss := result.packetLoss }
  else { avgLatency := result.avgLatency }

/-- `parsePingOutput` from `pkg/latency/latency.go`: extract packet loss
(Unix regex first, then Windows), then RTT statistics (Unix regex first, then
Windows); a missing RTT line with 100% packet loss is not an error and skips
the mode filter. -/
def parsePingOutput (output mode : String) : Except String LatencyResult :=
  let cs := output.toList
  let packetLoss : String :=
    match findFirst matchLossUnixAt cs with
    | some m => m ++ "%"
    | none =>
      match findFirst matchLossWinAt cs with
      | some m => m ++ "%"
      | none => ""
  match findFirst matchRttUnixAt cs with
  | some (_, avg, _, dev) =>
    let result : LatencyResult :=
      { avgLatency := avg ++ " ms"
        jitter := if mode ≠ "quick" then dev ++ " ms" else ""
        packetLoss := packetLoss }
    Except.ok (modeFilter result mode)
  | none =>
    match findFirst matchRttWinAt cs with
    | some (_, _, avg) =>
      let result : LatencyResult :=
        { avgLatency := avg ++ " ms"
          jitter := if mode ≠ "quick" then "N/A" else ""
          packetLoss := packetLoss }
      Except.ok (modeFilter result mode)
    | none =>
      if packetLoss = "100%" then
        Except.ok { packetLoss := packetLoss }
      else Except.error "could not parse ping statistics"

/-! ## Subprocess oracle

`exec.CommandContext(ctx, prog, args...).CombinedOutput()` is modelled as an
oracle from the invoked command to its combined output, whether the call
returned a non-nil error, whether the request context's deadline had expired
(`ctx.Err() == context.DeadlineExceeded`), and the Go error's text (used by
`%w`-wrapping).  Theorems quantify over the oracle. -/

/-- One invocation of an external binary with its positional argument list. -/
structure ExecCall where
  prog : String
  args : List String
deriving DecidableEq, Repr

/-- Outcome of `CombinedOutput()` on one invocation. -/
structure ExecResult where
  output : String
  failed : Bool
  ctxTimedOut : Bool
  errMsg : String
deriving DecidableEq, Repr

/-- ASCII lower-casing; the Go code applies `strings.ToLower` to the `mode`
argument only to compare it with the ASCII literals `"quick"`/`"standard"`,
for which Unicode and ASCII folding agree. -/
def toLowerAscii (s : String) : String := String.mk (s.toList.map likeFold)

/-- The value `latency.Run` produces: either a plain guidance string (the
`mode` prompts) or a parsed `LatencyResult`. -/
inductive LatencyRunVal
  | message (s : String)
  | parsed (r : LatencyResult)
deriving DecidableEq, Repr

/-- The packet count chosen from `mode` in `latency.Run`
(`quick` → 10 packets, `standard` → 100, else none). -/
def Latency.count (mode : String) : Option String :=
  if toLowerAscii mode = "quick" then some "10"
  else if toLowerAscii mode = "standard" then some "100"
  else none

/-- The `ping` invocation `latency.Run` performs for a target and mode
(Linux branch: `ping -c {count} -i 0.2 -q {target}`), or `none` when `Run`
returns before any subprocess is started (empty or unknown mode).  Note the
target is never validated on this path. -/
def Latency.command (target mode : String) : Option ExecCall :=
  if mode = "" then none
  else
    match Latency.count mode with
    | none => none
    | some count => some ⟨"ping", ["-c", count, "-i", "0.2", "-q", target]⟩

/-- `latency.Run` from `pkg/latency/latency.go` (Linux branch): choose the
packet count from `mode`, run `ping`, and parse the combined output; a failed
run with empty output is an error, otherwise the output is parsed anyway. -/
def Latency.Run (exec : ExecCall → ExecResult) (target mode : String) :
    Except String LatencyRunVal :=
  if mode = "" then
    Except.ok (.message
      "Please specify the test mode: 'quick' (10 packets) or 'standard' (100 packets).")
  else
    match Latency.count mode with
    | none => Except.ok (.message "Invalid mode. Please specify: 'quick' or 'standard'.")
    | some count =>
      let r := exec ⟨"ping", ["-c", count, "-i", "0.2", "-q", target]⟩
      if r.failed && r.output = "" then Except.error ("ping failed: " ++ r.errMsg)
      else (parsePingOutput r.output mode).map LatencyRunVal.parsed

/-! ## pkg/traceroute — target validation and execution (`traceroute.go`) -/

/-- The shell metacharacters rejected by `validateTarget`
(`strings.ContainsAny(target, ";&|` ++ "`" ++ `$<>")`). -/
def shellMetaChars : String := ";&|`$<>"

/-- `strings.ContainsAny(target, shellMetaChars)`. -/
def hasShellMeta (target : String) : Bool :=
  target.toList.any (fun c => shellMetaChars.toList.contains c)

/-- `validateTarget` from `pkg/traceroute/traceroute.go`.  `isIP` is the
`net.ParseIP(target) != nil` oracle (Go standard library, kept abstract);
`len(target)` is the UTF-8 byte length. -/
def validateTarget (isIP : String → Bool) (target : String) : Except String Unit :=
  if target = "" then Except.error "target cannot be empty"
  else if hasShellMeta target then Except.error "invalid characters in target"
  else if isIP target then Except.ok ()
  else if target.utf8ByteSize > 253 then Except.error "target too long"
  else Except.ok ()

/-- The Linux argument list of the traceroute invocation:
`traceroute -n -w 1 -q 1 -m 20 {target}`, passed positionally. -/
def Traceroute.args (target : String) : List String :=
  ["-n", "-w", "1", "-q", "1", "-m", "20", target]

/-- The subprocess `traceroute.Run` starts for a target, or `none` when
`validateTarget` rejects the target before any subprocess is started. -/
def Traceroute.command (isIP : String → Bool) (target : String) : Option ExecCall :=
  match validateTarget isIP target with
  | Except.error _ => none
  | Except.ok _ => some ⟨"traceroute", Traceroute.args target⟩

/-- `traceroute.Run` from `pkg/traceroute/traceroute.go` (Linux branch):
validate, execute, and wrap failures; returns (combined output, optional
error text) as the Go `(string, error)` pair. -/
def Traceroute.Run (isIP : String → Bool) (exec : ExecCall → ExecResult)
    (target : String) : String × Option String :=
  match validateTarget isIP target with
  | Except.error e => ("", some ("invalid target: " ++ e))
  | Except.ok _ =>
    let r := exec ⟨"traceroute", Traceroute.args target⟩
    if r.failed then
      if r.ctxTimedOut then (r.output, some ("traceroute timed out: " ++ r.errMsg))
      else (r.output, some ("traceroute failed: " ++ r.errMsg))
    else (r.output, none)

/-! ## pkg/cache — the SQLite record store (`cache.go`)

The store keeps three tables (`latency_records`, `traceroute_records`,
`system_stats_records`), modelled as lists of typed rows in insertion order;
`id INTEGER PRIMARY KEY AUTOINCREMENT` is the per-table row count plus one.
`DB == nil` (store never initialized) is `Option`.  `DB.Exec` inserts are
modelled as succeeding; the callers treat insert errors as non-fatal and only
log them, so failed inserts change no claim-relevant behaviour. -/

/-- A row of `latency_records (id, timestamp, target, mode, result)`. -/
structure LatencyRow where
  id : Nat
  timestamp : String
  target : String
  mode : String
  result : String
deriving DecidableEq, Repr

/-- A row of `traceroute_records (id, timestamp, target, result)`. -/
structure TracerouteRow where
  id : Nat
  timestamp : String
  target : String
  result : String
deriving DecidableEq, Repr

/-- A row of `system_stats_records (id, timestamp, result)`. -/
structure SystemStatsRow where
  id : Nat
  timestamp : String
  result : String
deriving DecidableEq, Repr

/-- The database contents after `cache.Init` (empty tables). -/
structure CacheDB where
  latencyRecords : List LatencyRow := []
  tracerouteRecords : List TracerouteRow := []
  systemStatsRecords : List SystemStatsRow := []
deriving DecidableEq, Repr

/-- `cache.RecordLatency`: no-op when the store is uninitialized, else insert
a row stamped with the current local time `now` (`cache.LocalTimeNow()`). -/
def Cache.RecordLatency (db : Option CacheDB) (now target mode result : String) :
    Option CacheDB :=
  match db with
  | none => none
  | some d =>
    some { d with latencyRecords :=
      d.latencyRecords ++ [⟨d.latencyRecords.length + 1, now, target, mode, result⟩] }

/-- `cache.RecordTraceroute`. -/
def Cache.RecordTraceroute (db : Option CacheDB) (now target result : String) :
    Option CacheDB :=
  match db with
  | none => none
  | some d =>
    some { d with tracerouteRecords :=
      d.tracerouteRecords ++ [⟨d.tracerouteRecords.length + 1, now, target, result⟩] }

/-- `cache.RecordSystemStats`. -/
def Cache.RecordSystemStats (db : Option CacheDB) (now result : String) :
    Option CacheDB :=
  match db with
  | none => none
  | some d =>
    some { d with systemStatsRecords :=
      d.systemStatsRecords ++ [⟨d.systemStatsRecords.length + 1, now, result⟩] }

/-- A row returned by `QueryRecords`' `SELECT *`, tagged by the table it came
from (the table is selected by the `tool` argument). -/
inductive QueryRow
  | latency (r : LatencyRow)
  | traceroute (r : TracerouteRow)
  | systemStats (r : SystemStatsRow)
deriving DecidableEq, Repr

/-- The `timestamp` column of a returned row. -/
def QueryRow.timestamp : QueryRow → String
  | .latency r => r.timestamp
  | .traceroute r => r.timestamp
  | .systemStats r => r.timestamp

/-- The `target` column of a returned row; `system_stats_records` has no
such column, and the code never applies the target filter to it. -/
def QueryRow.targetCol : QueryRow → String
  | .latency r => r.target
  | .traceroute r => r.target
  | .systemStats _ => ""

/-- The `result` column of a returned row (the persisted tool output). -/
def QueryRow.resultCol : QueryRow → String
  | .latency r => r.result
  | .traceroute r => r.result
  | .systemStats r => r.result

/-- The table selected by `tool` in `QueryRecords`' `switch`, in rowid
(insertion) order; `none` for an unknown tool. -/
def Cache.tableRows (d : CacheDB) (tool : String) : Option (List QueryRow) :=
  if tool = "latency" then some (d.latencyRecords.map QueryRow.latency)
  else if tool = "traceroute" then some (d.tracerouteRecords.map QueryRow.traceroute)
  else if tool = "system_stats" then some (d.systemStatsRecords.map QueryRow.systemStats)
  else none

/-- The accumulated `WHERE` clause of `QueryRecords`:
`timestamp >= ?` when `startTime` is non-empty, `timestamp <= ?` when
`endTime` is non-empty, and `target LIKE '%'||?||'%'` when `target` is
non-empty and the tool is not `system_stats`. -/
def Cache.matchesQuery (tool startTime endTime target : String) (r : QueryRow) : Bool :=
  (startTime = "" || strLe startTime r.timestamp)
  && (endTime = "" || strLe r.timestamp endTime)
  && (target = "" || tool = "system_stats"
      || strLike ("%" ++ target ++ "%") r.targetCol)

/-- `ORDER BY timestamp DESC`: `a` may precede `b` iff `b.timestamp` is at
most `a.timestamp`. -/
def Cache.orderDesc (a b : QueryRow) : Prop := strLe b.timestamp a.timestamp = true

instance : DecidableRel Cache.orderDesc := fun a b => by
  unfold Cache.orderDesc
  infer_instance

/-- `cache.QueryRecords`: route `tool` to its table, apply the accumulated
`WHERE` filter, and sort by `timestamp` descending (modelled by insertion
sort, one valid realization of SQLite's unstable `ORDER BY`). -/
def Cache.QueryRecords (db : Option CacheDB) (tool startTime endTime target : String) :
    Except String (List QueryRow) :=
  match db with
  | none => Except.error "database not initialized"
  | some d =>
    match Cache.tableRows d tool with
    | none => Except.error ("unknown tool: " ++ tool)
    | some rows =>
      Except.ok (List.insertionSort Cache.orderDesc
        (rows.filter (Cache.matchesQuery tool startTime endTime target)))

/-! ## main.go — JSON-RPC envelope and MCP structures -/

/-- A JSON-RPC `id` scalar; `null` also stands for an absent `id` (Go decodes
a missing field to a nil `interface{}`). -/
inductive JsonId
  | null
  | num (n : Int)
  | str (s : String)
deriving DecidableEq, Repr

/-- A decoded JSON argument value as it appears in the untyped
`map[string]interface{}` (JSON numbers are float64; the code only reads
integral values, embedded as `Int`). -/
inductive JsonValue
  | str (s : String)
  | num (n : Int)
  | other
deriving DecidableEq, Repr

/-- `CallToolParams` from main.go. -/
structure CallToolParams where
  name : String
  arguments : List (String × JsonValue)
deriving DecidableEq, Repr

/-- The raw `params` field of a request: absent, decodable into
`CallToolParams`, or rejected by `json.Unmarshal`.  (`tools/call` treats an
absent `params` like malformed JSON: `json.Unmarshal` on a nil message
errors.) -/
inductive RawParams
  | missing
  | decoded (p : CallToolParams)
  | malformed
deriving DecidableEq, Repr

/-- `JSONRPCRequest` from main.go. -/
structure JSONRPCRequest where
  method : String
  params : RawParams
  id : JsonId
deriving DecidableEq, Repr

/-- `JSONRPCError` from main.go. -/
structure JSONRPCError where
  code : Int
  message : String
deriving DecidableEq, Repr

/-- One `content` entry of a tool call result. -/
structure Content where
  type : String
  text : String
deriving DecidableEq, Repr

/-- `CallToolResult` from main.go. -/
structure CallToolResult where
  content : List Content
  isError : Bool
deriving DecidableEq, Repr

/-- A property of a tool's input schema. -/
structure Property where
  type : String
  description : String
deriving DecidableEq, Repr

/-- `Schema` from main.go (`inputSchema`). -/
structure Schema where
  type : String
  properties : List (String × Property)
  required : List String := []
deriving DecidableEq, Repr

/-- `Tool` from main.go (a catalog descriptor). -/
structure Tool where
  name : String
  description : String
  inputSchema : Schema
deriving DecidableEq, Repr

/-- The `result` payload of a response: the `initialize` result, the
`tools/list` catalog, or a tool call result. -/
inductive ResultPayload
  | initializeResult (protocolVersion serverName serverVersion : String)
  | toolsList (tools : List Tool)
  | callResult (r : CallToolResult)
deriving DecidableEq, Repr

/-- `JSONRPCResponse` from main.go: carries `result` or `error`. -/
structure JSONRPCResponse where
  id : JsonId
  result : Option ResultPayload
  error : Option JSONRPCError
deriving DecidableEq, Repr

/-- Argument lookup in the decoded `map[string]interface{}`. -/
def lookupArg (args : List (String × JsonValue)) (key : String) : Option JsonValue :=
  (args.find? (fun kv => kv.fst == key)).map (fun kv => kv.snd)

/-- `getStringArg` from main.go: the argument's value when it is a string,
`""` otherwise (missing key or non-string value). -/
def getStringArg (args : List (String × JsonValue)) (key : String) : String :=
  match lookupArg args key with
  | some (JsonValue.str s) => s
  | _ => ""

/-- Digit list to number, for `fmt.Sscanf(v, "%d", &pid)`. -/
def natOfDigits (ds : List Char) : Nat :=
  ds.foldl (fun n c => n * 10 + (c.toNat - 48)) 0

/-- `fmt.Sscanf(s, "%d", &pid)`: skip leading spaces, optional sign, then
decimal digits; on no match `pid` keeps its zero value. -/
def sscanfInt (s : String) : Int :=
  let cs := s.toList.dropWhile (fun c => c = ' ')
  match cs with
  | '-' :: rest =>
    let (ds, _) := digitRun rest
    if ds.isEmpty then 0 else -(natOfDigits ds : Int)
  | '+' :: rest =>
    let (ds, _) := digitRun rest
    if ds.isEmpty then 0 else (natOfDigits ds : Int)
  | _ =>
    let (ds, _) := digitRun cs
    if ds.isEmpty then 0 else (natOfDigits ds : Int)

/-- The `pid` extraction in the `kill_process` branch: a JSON number is
truncated to int, a string is scanned with `Sscanf`, anything else (or a
missing key) leaves the zero value. -/
def extractPid (args : List (String × JsonValue)) : Int :=
  match lookupArg args "pid" with
  | some (JsonValue.num v) => v
  | some (JsonValue.str s) => sscanfInt s
  | _ => 0

/-- Join strings with a separator (serialization helper). -/
def joinStrings (sep : String) : List String → String
  | [] => ""
  | x :: rest => rest.foldl (fun acc y => acc ++ sep ++ y) x

/-- JSON string quoting, modelled for payloads without JSON-escaped
characters (the modelled values are plain ASCII). -/
def jsonQuote (s : String) : String := "\"" ++ s ++ "\""

/-- `json.MarshalIndent(result, "", "  ")` on a `LatencyResult`: two-space
indented object; `jitter` and `packet_loss` carry `omitempty`. -/
def marshalLatencyResult (r : LatencyResult) : String :=
  let fields : List (String × String) :=
    [("avg_latency", r.avgLatency)]
      ++ (if r.jitter = "" then [] else [("jitter", r.jitter)])
      ++ (if r.packetLoss = "" then [] else [("packet_loss", r.packetLoss)])
  "\x7b\n"
    ++ joinStrings ",\n"
        (fields.map (fun kv => "  " ++ jsonQuote kv.fst ++ ": " ++ jsonQuote kv.snd))
    ++ "\n\x7d"

/-- One returned row as the JSON object Go produces for its
`map[string]interface{}` (Go serializes map keys in sorted order; `id` is a
number, the text columns are strings). -/
def marshalRow (r : QueryRow) : String :=
  let fields : List (String × String) :=
    match r with
    | QueryRow.latency x =>
      [("id", toString x.id), ("mode", jsonQuote x.mode), ("result", jsonQuote x.result),
       ("target", jsonQuote x.target), ("timestamp", jsonQuote x.timestamp)]
    | QueryRow.traceroute x =>
      [("id", toString x.id), ("result", jsonQuote x.result),
       ("target", jsonQuote x.target), ("timestamp", jsonQuote x.timestamp)]
    | QueryRow.systemStats x =>
      [("id", toString x.id), ("result", jsonQuote x.result),
       ("timestamp", jsonQuote x.timestamp)]
  "\x7b\n"
    ++ joinStrings ",\n" (fields.map (fun kv => "    " ++ jsonQuote kv.fst ++ ": " ++ kv.snd))
    ++ "\n  \x7d"

/-- `json.MarshalIndent(records, "", "  ")`: a nil slice (no rows) marshals
as `null`, otherwise an indented array. -/
def marshalRecords (rows : List QueryRow) : String :=
  match rows with
  | [] => "null"
  | _ => "[\n  " ++ joinStrings ",\n  " (rows.map marshalRow) ++ "\n]"

/-- The static tool catalog from the `tools/list` arm of `handleRequest`,
with the advertised descriptions and input schemas. -/
def toolsCatalog : List Tool :=
  [ { name := "traceroute"
      description := "Execute a traceroute to a target IP or domain"
      inputSchema :=
        { type := "object"
          properties :=
            [("target", { type := "string"
                          description := "The target IP address or hostname to traceroute" })]
          required := ["target"] } }
  , { name := "system_stats"
      description := "Get system statistics (CPU, Memory, Disk)"
      inputSchema := { type := "object", properties := [] } }
  , { name := "latency_check"
      description := "Check latency and packet loss to a target"
      inputSchema :=
        { type := "object"
          properties :=
            [ ("target", { type := "string"
                           description := "The target IP address or hostname" })
            , ("mode", { type := "string"
                         description := "Test mode: 'quick' (10 pkts) or 'standard' (100 pkts)" }) ]
          required := ["target"] } }
  , { name := "read_records"
      description := "Read execution records from the database. Time format must be YYYYMMDDhhmmss."
      inputSchema :=
        { type := "object"
          properties :=
            [ ("tool", { type := "string"
                         description := "Tool name to query (latency, traceroute, system_stats)" })
            , ("start_time", { type := "string"
                               description := "Start time (YYYYMMDDhhmmss) for filtering" })
            , ("end_time", { type := "string"
                             description := "End time (YYYYMMDDhhmmss) for filtering" })
            , ("target", { type := "string"
                           description := "Target host to filter by (for latency and traceroute)" }) ]
          required := ["tool"] } }
  , { name := "kill_process"
      description := "Terminate a process by PID. The AI Agent must resolve the process name to a PID (e.g., using system_stats) before calling this."
      inputSchema :=
        { type := "object"
          properties := [("pid", { type := "integer"
                                   description := "Process ID to terminate" })]
          required := ["pid"] } }
  ]

/-- `createSuccessResponse` from main.go: a result with a single text block. -/
def createSuccessResponse (id : JsonId) (output : String) : JSONRPCResponse :=
  { id := id
    result := some (ResultPayload.callResult
      { content := [{ type := "text", text := output }], isError := false })
    error := none }

/-- `createErrorResponse` from main.go: a *successful* JSON-RPC response
whose result carries `isError: true` and the diagnostic text. -/
def createErrorResponse (id : JsonId) (message : String) : JSONRPCResponse :=
  { id := id
    result := some (ResultPayload.callResult
      { content := [{ type := "text", text := message }], isError := true })
    error := none }

/-- `errorResponse` from main.go: a protocol-level JSON-RPC error object. -/
def errorResponse (id : JsonId) (code : Int) (message : String) : JSONRPCResponse :=
  { id := id, result := none, error := some { code := code, message := message } }

/-- The external effects `handleRequest` performs, as oracles: `net.ParseIP`,
subprocess execution, `system.GetStats`, `system.KillProcess` (the optional
error's text), and the wall clock `cache.LocalTimeNow()` read at persistence
time.  `json.MarshalIndent` on the in-memory values is modelled as
succeeding (its error branches are unreachable for these value types). -/
structure HandlerEnv where
  isIP : String → Bool
  exec : ExecCall → ExecResult
  getStats : Except String String
  kill : Int → Option String
  now : String

/-- The `tools/call` dispatch of `handleRequest` (the sequential `if` chain
over `params.Name`), returning the response and the updated store. -/
def handleToolCall (env : HandlerEnv) (db : Option CacheDB) (id : JsonId)
    (params : CallToolParams) : Option JSONRPCResponse × Option CacheDB :=
  if params.name = "system_stats" then
    match env.getStats with
    | Except.error e =>
      (some (createErrorResponse id ("Failed to get system stats: " ++ e)), db)
    | Except.ok output =>
      (some (createSuccessResponse id output), Cache.RecordSystemStats db env.now output)
  else if params.name = "latency_check" then
    let target := getStringArg params.arguments "target"
    if target = "" then (some (createErrorResponse id "Error: Missing target argument"), db)
    else
      let mode := getStringArg params.arguments "mode"
      match Latency.Run env.exec target mode with
      | Except.error e =>
        (some (createErrorResponse id ("Latency check failed: " ++ e)), db)
      | Except.ok v =>
        let output :=
          match v with
          | LatencyRunVal.message s => s
          | LatencyRunVal.parsed r => marshalLatencyResult r
        (some (createSuccessResponse id output), Cache.RecordLatency db env.now target mode output)
  else if params.name = "traceroute" then
    let target := getStringArg params.arguments "target"
    if target = "" then (some (createErrorResponse id "Error: Missing target argument"), db)
    else
      match Traceroute.Run env.isIP env.exec target with
      | (output, some e) =>
        (some (createErrorResponse id
          ("Traceroute execution failed: " ++ e ++ "\nOutput:\n" ++ output)), db)
      | (output, none) =>
        (some (createSuccessResponse id output), Cache.RecordTraceroute db env.now target output)
  else if params.name = "read_records" then
    let tool := getStringArg params.arguments "tool"
    if tool = "" then (some (createErrorResponse id "Error: Missing tool argument"), db)
    else
      let startTime := getStringArg params.arguments "start_time"
      let endTime := getStringArg params.arguments "end_time"
      let target := getStringArg params.arguments "target"
      match Cache.QueryRecords db tool startTime endTime target with
      | Except.error e =>
        (some (createErrorResponse id ("Failed to query records: " ++ e)), db)
      | Except.ok records =>
        (some (createSuccessResponse id (marshalRecords records)), db)
  else if params.name = "kill_process" then
    let pid := extractPid params.arguments
    if pid = 0 then (some (createErrorResponse id "Error: Must provide valid 'pid'"), db)
    else
      match env.kill pid with
      | some e =>
        (some (createErrorResponse id
          ("Failed to kill process " ++ toString pid ++ ": " ++ e)), db)
      | none =>
        (some (createSuccessResponse id ("Successfully killed process " ++ toString pid)), db)
  else (some (errorResponse id (-32601) "Tool not found"), db)

/-- `handleRequest` from main.go: the method `switch`.  Only
`notifications/initialized` yields no response; the request `id` is copied
into the response but never inspected. -/
def handleRequest (env : HandlerEnv) (db : Option CacheDB) (req : JSONRPCRequest) :
    Option JSONRPCResponse × Option CacheDB :=
  if req.method = "initialize" then
    (some { id := req.id
            result := some (ResultPayload.initializeResult "2024-11-05" "mcp-netutil" "0.1.4")
            error := none }, db)
  else if req.method = "notifications/initialized" then
    (none, db)
  else if req.method = "tools/list" then
    (some { id := req.id
            result := some (ResultPayload.toolsList toolsCatalog)
            error := none }, db)
  else if req.method = "tools/call" then
    match req.params with
    | RawParams.decoded params => handleToolCall env db req.id params
    | _ => (some (errorResponse req.id (-32700) "Parse error"), db)
  else (some (errorResponse req.id (-32601) "Method not found"), db)

/-! ## main.go — transports

`serveStdio` decodes one request at a time, calls `handleRequest`
synchronously under a 300-second context, and encodes the non-nil response;
it has no deadline branch of its own.  `handleMessages` (the SSE POST sink)
answers 202 and starts a background worker that races `handleRequest`
against the 300-second deadline in a `select`, then sends the winner on the
session's channel. -/

/-- `serveStdio` builds the per-request context with
`context.WithTimeout(context.Background(), 300*time.Second)`. -/
def stdioTimeoutSeconds : Nat := 300

/-- The SSE POST worker builds its context with
`context.WithTimeout(context.Background(), 300*time.Second)`. -/
def sseTimeoutSeconds : Nat := 300

/-- One iteration of `serveStdio`'s loop after a request decodes:
`handleRequest` runs synchronously (under the 300 s context, which its
handlers observe through the subprocess oracle) and its response is emitted
when non-nil.  No `-32000` timeout response is ever synthesized here. -/
def stdioStep (env : HandlerEnv) (db : Option CacheDB) (req : JSONRPCRequest) :
    Option JSONRPCResponse × Option CacheDB :=
  handleRequest env db req

/-- Which arm of the worker's `select` fired: `resultChan` delivered the
handler's response first, or the 300 s context expired first. -/
inductive WorkerOutcome
  | finished
  | deadlineExpired
deriving DecidableEq, Repr

/-- What the SSE POST worker enqueues on the session channel: the handler's
response when it finished in time (nothing for a nil response), else exactly
one `-32000` "Request timed out after 300s" error for the request's id. -/
def sseWorkerEmit (req : JSONRPCRequest) (handlerResp : Option JSONRPCResponse) :
    WorkerOutcome → Option JSONRPCResponse
  | WorkerOutcome.finished => handlerResp
  | WorkerOutcome.deadlineExpired =>
    some (errorResponse req.id (-32000) "Request timed out after 300s")

/-! ## main.go — SSE session manager as a transition system

The interleavings of `handleSSE` and `handleMessages` over the shared
`sessions` map:

* `connect`: `handleSSE` registers a fresh session in the map (`mu.Lock`).
* `post`: `handleMessages` looks the session up under `mu.RLock`; if present
  it answers 202 and spawns a background worker holding the `*Session`
  pointer.  An absent session is a 404 and spawns nothing.
* `disconnect`: `handleSSE`'s deferred cleanup deletes the session from the
  map and then closes `session.MsgChan`.
* `workerSend`: a spawned worker finishes (either `select` arm) and performs
  `session.MsgChan <- resp` through its retained pointer, without re-checking
  the map.

The state counts sends performed after the session was removed from the
manager, and sends performed on an already-closed channel (which panic the
Go runtime). -/

/-- Scheduler actions over the SSE session manager. -/
inductive SseAction
  | connect (sid : String)
  | post (sid : String)
  | disconnect (sid : String)
  | workerSend (sid : String)
deriving DecidableEq, Repr

/-- The session manager's shared state plus instrumentation counters. -/
structure SseState where
  registered : List String := []
  closedChans : List String := []
  workers : List String := []
  sendsAfterRemoval : Nat := 0
  sendsOnClosedChan : Nat := 0
deriving DecidableEq, Repr

/-- One scheduler step (see the action glossary above). -/
def sseStep (s : SseState) : SseAction → SseState
  | SseAction.connect sid => { s with registered := sid :: s.registered }
  | SseAction.post sid =>
    if sid ∈ s.registered then { s with workers := sid :: s.workers } else s
  | SseAction.disconnect sid =>
    { s with registered := s.registered.erase sid
             closedChans := sid :: s.closedChans }
  | SseAction.workerSend sid =>
    if sid ∈ s.workers then
      { s with workers := s.workers.erase sid
               sendsAfterRemoval :=
                 s.sendsAfterRemoval + (if sid ∈ s.registered then 0 else 1)
               sendsOnClosedChan :=
                 s.sendsOnClosedChan + (if sid ∈ s.closedChans then 1 else 0) }
    else s

/-- Run a schedule from a state. -/
def sseRun (s : SseState) : List SseAction → SseState
  | [] => s
  | a :: rest => sseRun (sseStep s a) rest

/-- The manager's initial state (empty session map, no workers). -/
def sseInit : SseState := {}

/-! ## Shared lemmas -/

/-- Strict lexicographic order on strings, used to state half-open
interval bounds. -/
def strLt (a b : String) : Bool := strLe a b && !(a == b)

theorem strLe_total (a b : String) : strLe a b || strLe b a := lexLe_total _ _

theorem strLe_trans {a b c : String} (h1 : strLe a b = true) (h2 : strLe b c = true) :
    strLe a c = true := lexLe_trans _ _ _ h1 h2

instance : IsTrans QueryRow Cache.orderDesc :=
  ⟨fun _ _ _ h1 h2 => strLe_trans h2 h1⟩

instance : IsTotal QueryRow Cache.orderDesc :=
  ⟨fun a b => by
    unfold Cache.orderDesc
    have h := strLe_total b.timestamp a.timestamp
    rcases Bool.or_eq_true_iff.mp h with h' | h'
    · exact Or.inl h'
    · exact Or.inr h'⟩

/-- Unfolding of a successful `QueryRecords` call into its filter-and-sort
form. -/
theorem queryRecords_eq {d : CacheDB} {tool s e tgt : String} {rows base : List QueryRow}
    (hbase : Cache.tableRows d tool = some base)
    (hq : Cache.QueryRecords (some d) tool s e tgt = Except.ok rows) :
    rows = List.insertionSort Cache.orderDesc
      (base.filter (Cache.matchesQuery tool s e tgt)) := by
  have h : Cache.QueryRecords (some d) tool s e tgt
      = match Cache.tableRows d tool with
        | none => Except.error ("unknown tool: " ++ tool)
        | some rs =>
          Except.ok (List.insertionSort Cache.orderDesc
            (rs.filter (Cache.matchesQuery tool s e tgt))) :=
    rfl
  rw [h, hbase] at hq
  exact ((Except.ok.injEq _ _).mp hq).symm

/-- Membership in a query result is membership in the selected table plus the
`WHERE` clause. -/
theorem mem_queryRecords {d : CacheDB} {tool s e tgt : String} {rows base : List QueryRow}
    (hbase : Cache.tableRows d tool = some base)
    (hq : Cache.QueryRecords (some d) tool s e tgt = Except.ok rows) (r : QueryRow) :
    r ∈ rows ↔ r ∈ base ∧ Cache.matchesQuery tool s e tgt r = true := by
  rw [queryRecords_eq hbase hq, (List.perm_insertionSort _ _).mem_iff, List.mem_filter]

/-- A query result is sorted by timestamp descending. -/
theorem sorted_queryRecords {d : CacheDB} {tool s e tgt : String} {rows base : List QueryRow}
    (hbase : Cache.tableRows d tool = some base)
    (hq : Cache.QueryRecords (some d) tool s e tgt = Except.ok rows) :
    List.Pairwise Cache.orderDesc rows := by
  rw [queryRecords_eq hbase hq]
  exact List.sorted_insertionSort Cache.orderDesc _

/-- The reply shape of every tool-call handler: the request's id, no JSON-RPC
error object, and a result whose content is exactly one text block. -/
def isSingleTextResult (id : JsonId) (resp : JSONRPCResponse) : Prop :=
  resp.id = id ∧ resp.error = none ∧
    ∃ r, resp.result = some (ResultPayload.callResult r)
      ∧ r.content.map Content.type = ["text"]

theorem createSuccess_shape (id : JsonId) (o : String) :
    isSingleTextResult id (createSuccessResponse id o) :=
  ⟨rfl, rfl, ⟨_, rfl, rfl⟩⟩

theorem createError_shape (id : JsonId) (m : String) :
    isSingleTextResult id (createErrorResponse id m) :=
  ⟨rfl, rfl, ⟨_, rfl, rfl⟩⟩

/-- `handleToolCall` always produces a response. -/
theorem handleToolCall_isSome (env : HandlerEnv) (db : Option CacheDB) (id : JsonId)
    (params : CallToolParams) : ((handleToolCall env db id params).fst).isSome = true := by
  simp only [handleToolCall]
  repeat' split
  all_goals simp

/-! ## Claim theorems -/

/-- C1 (code bug witnessed on the session model): the claim says a removed
session's outbound channel is never written to again, but the scheduler can
run a POST worker to completion after the client disconnects: the worker,
spawned while the session was registered, performs its enqueue after the
session has been removed from the manager and its channel closed (in Go, a
send on a closed channel, which panics).  The schedule below is connect,
POST accepted, disconnect, worker finishes. -/
theorem C1_write_after_removal :
    (sseRun sseInit
      [SseAction.connect "s", SseAction.post "s", SseAction.disconnect "s",
       SseAction.workerSend "s"]).sendsAfterRemoval = 1
    ∧ (sseRun sseInit
        [SseAction.connect "s", SseAction.post "s", SseAction.disconnect "s",
         SseAction.workerSend "s"]).sendsOnClosedChan = 1 := by
  exact ⟨rfl, rfl⟩

/-- C2 (counterexample): a `tools/list` request whose id is null is a
notification per the claim and must produce no response, but `handleRequest`
never inspects the id and answers it. -/
theorem C2_counterexample :
    ((handleRequest
        { isIP := fun _ => false
          exec := fun _ => { output := "", failed := false, ctxTimedOut := false, errMsg := "" }
          getStats := Except.ok ""
          kill := fun _ => none
          now := "" }
        none
        { method := "tools/list", params := RawParams.missing, id := JsonId.null }).fst).isSome
      = true := rfl

/-- C2 (amended): the dispatcher suppresses a response for exactly the method
`notifications/initialized`; every other method — including `tools/list`,
`initialize`, `tools/call` and unknown methods — produces a response
regardless of the request id, null id included. -/
theorem C2_amended_none_iff_initialized (env : HandlerEnv) (db : Option CacheDB)
    (req : JSONRPCRequest) :
    (handleRequest env db req).fst = none ↔ req.method = "notifications/initialized" := by
  constructor
  · intro h
    unfold handleRequest at h
    by_cases e1 : req.method = "initialize"
    · rw [if_pos e1] at h; simp at h
    rw [if_neg e1] at h
    by_cases e2 : req.method = "notifications/initialized"
    · exact e2
    rw [if_neg e2] at h
    by_cases e3 : req.method = "tools/list"
    · rw [if_pos e3] at h; simp at h
    rw [if_neg e3] at h
    by_cases e4 : req.method = "tools/call"
    · rw [if_pos e4] at h
      rcases hp : req.params with _ | p | _ <;> rw [hp] at h
      · simp at h
      · have hs := handleToolCall_isSome env db req.id p
        rw [h] at hs
        simp at hs
      · simp at h
    · rw [if_neg e4] at h; simp at h
  · intro h
    simp [handleRequest, h]

/-- C3 (counterexample): the claim requires the injection-suspect target
`8.8.8.8; rm -rf /` to be rejected before any subprocess starts for both
`traceroute` and `latency_check`; but the latency handler never validates the
target: `latency.Run` hands it straight to the `ping` invocation, and the
resulting diagnostic mentions a parse failure, not invalid characters. -/
theorem C3_counterexample :
    Latency.command "8.8.8.8; rm -rf /" "quick"
      = some { prog := "ping"
               args := ["-c", "10", "-i", "0.2", "-q", "8.8.8.8; rm -rf /"] }
    ∧ hasShellMeta "8.8.8.8; rm -rf /" = true
    ∧ (handleRequest
        { isIP := fun _ => false
          exec := fun _ =>
            { output := "ping: foo", failed := true, ctxTimedOut := false
              errMsg := "exit status 2" }
          getStats := Except.ok ""
          kill := fun _ => none
          now := "t" }
        none
        { method := "tools/call"
          params := RawParams.decoded
            { name := "latency_check"
              arguments := [("target", JsonValue.str "8.8.8.8; rm -rf /"),
                            ("mode", JsonValue.str "quick")] }
          id := JsonId.num 1 }).fst
      = some (createErrorResponse (JsonId.num 1)
          "Latency check failed: could not parse ping statistics")
    ∧ ¬ strContains "Latency check failed: could not parse ping statistics"
        "invalid characters in target" := by
  exact ⟨rfl, rfl, rfl, by decide⟩

/-- C3 (amended): only the `traceroute` handler validates the host argument:
a target containing one of the shell metacharacters is rejected before any
subprocess starts with an `isError` diagnostic containing "invalid characters
in target", and a non-IP target longer than 253 bytes is rejected as too
long; `latency_check` performs no such validation and passes the raw target
positionally to the `ping` invocation (so no shell interprets it). -/
theorem C3_amended :
    (∀ (env : HandlerEnv) (db : Option CacheDB) (id : JsonId)
        (args : List (String × JsonValue)) (target : String),
        hasShellMeta target = true →
        getStringArg args "target" = target →
        (handleRequest env db
            { method := "tools/call"
              params := RawParams.decoded { name := "traceroute", arguments := args }
              id := id }).fst
          = some (createErrorResponse id
              "Traceroute execution failed: invalid target: invalid characters in target\nOutput:\n")
        ∧ Traceroute.command env.isIP target = none
        ∧ strContains
            "Traceroute execution failed: invalid target: invalid characters in target\nOutput:\n"
            "invalid characters in target")
    ∧ (∀ (isIP : String → Bool) (target : String),
        isIP target = false →
        hasShellMeta target = false →
        target ≠ "" →
        target.utf8ByteSize > 253 →
        validateTarget isIP target = Except.error "target too long"
        ∧ Traceroute.command isIP target = none)
    ∧ (∀ (target mode count : String),
        Latency.count mode = some count →
        Latency.command target mode
          = some { prog := "ping", args := ["-c", count, "-i", "0.2", "-q", target] }) := by
  refine ⟨?_, ?_, ?_⟩
  · intro env db id args target hmeta htarget
    have hne : target ≠ "" := by
      intro e
      rw [e] at hmeta
      exact absurd hmeta (by decide)
    have hval : validateTarget env.isIP target
        = Except.error "invalid characters in target" := by
      unfold validateTarget
      simp [hne, hmeta]
    have hrun : Traceroute.Run env.isIP env.exec target
        = ("", some ("invalid target: " ++ "invalid characters in target")) := by
      unfold Traceroute.Run
      rw [hval]
    refine ⟨?_, ?_, by decide⟩
    · simp only [handleRequest, handleToolCall]
      rw [htarget, hrun]
      simp [hne]
    · unfold Traceroute.command
      rw [hval]
  · intro isIP target hip hmeta hne hlen
    have hval : validateTarget isIP target = Except.error "target too long" := by
      unfold validateTarget
      simp [hne, hmeta, hip, hlen]
    refine ⟨hval, ?_⟩
    unfold Traceroute.command
    rw [hval]
  · intro target mode count hc
    have hne : mode ≠ "" := by
      intro e
      rw [e, (by decide : Latency.count "" = none)] at hc
      exact Option.noConfusion hc
    unfold Latency.command
    rw [if_neg hne, hc]

set_option maxRecDepth 4000 in
/-- C3 (amended, witness): the three parts of the amended claim instantiated
at the injection string, at a 254-byte non-IP hostname, and at quick mode. -/
theorem C3_amended_witness :
    ((handleRequest
        { isIP := fun _ => false
          exec := fun _ => { output := "", failed := false, ctxTimedOut := false, errMsg := "" }
          getStats := Except.ok ""
          kill := fun _ => none
          now := "t" }
        none
        { method := "tools/call"
          params := RawParams.decoded
            { name := "traceroute"
              arguments := [("target", JsonValue.str "8.8.8.8; rm -rf /")] }
          id := JsonId.num 2 }).fst
      = some (createErrorResponse (JsonId.num 2)
          "Traceroute execution failed: invalid target: invalid characters in target\nOutput:\n")
      ∧ Traceroute.command (fun _ => false) "8.8.8.8; rm -rf /" = none
      ∧ strContains
          "Traceroute execution failed: invalid target: invalid characters in target\nOutput:\n"
          "invalid characters in target")
    ∧ (validateTarget (fun _ => false) (String.mk (List.replicate 254 'a'))
        = Except.error "target too long"
      ∧ Traceroute.command (fun _ => false) (String.mk (List.replicate 254 'a')) = none)
    ∧ Latency.command "8.8.8.8" "quick"
      = some { prog := "ping", args := ["-c", "10", "-i", "0.2", "-q", "8.8.8.8"] } := by
  refine ⟨?_, ?_, ?_⟩
  · exact C3_amended.1
      { isIP := fun _ => false
        exec := fun _ => { output := "", failed := false, ctxTimedOut := false, errMsg := "" }
        getStats := Except.ok ""
        kill := fun _ => none
        now := "t" }
      none (JsonId.num 2) [("target", JsonValue.str "8.8.8.8; rm -rf /")]
      "8.8.8.8; rm -rf /" (by decide) rfl
  · exact C3_amended.2.1 (fun _ => false) (String.mk (List.replicate 254 'a'))
      rfl (by decide) (by decide) (by decide)
  · exact C3_amended.2.2 "8.8.8.8" "quick" "10" (by decide)

/-- C4 (confirmed): every `tools/call` that reaches a handler is answered
with a successful JSON-RPC response whose result is a single text content
block (never a JSON-RPC error object), whatever the environment does; and
the enumerated handler failures — a traceroute execution failure, a latency
(ping) failure, a missing required argument — are delivered through
`createErrorResponse`, i.e. with `isError: true` and the diagnostic text. -/
theorem C4_handler_failures_are_results :
    (∀ (env : HandlerEnv) (db : Option CacheDB) (id : JsonId) (params : CallToolParams),
        (params.name = "system_stats" ∨ params.name = "latency_check"
          ∨ params.name = "traceroute" ∨ params.name = "read_records"
          ∨ params.name = "kill_process") →
        ∃ resp, (handleRequest env db
            { method := "tools/call", params := RawParams.decoded params, id := id }).fst
          = some resp ∧ isSingleTextResult id resp)
    ∧ (∀ (env : HandlerEnv) (db : Option CacheDB) (id : JsonId)
        (args : List (String × JsonValue)) (output e : String),
        getStringArg args "target" ≠ "" →
        Traceroute.Run env.isIP env.exec (getStringArg args "target") = (output, some e) →
        (handleRequest env db
            { method := "tools/call"
              params := RawParams.decoded { name := "traceroute", arguments := args }
              id := id }).fst
          = some (createErrorResponse id
              ("Traceroute execution failed: " ++ e ++ "\nOutput:\n" ++ output)))
    ∧ (∀ (env : HandlerEnv) (db : Option CacheDB) (id : JsonId)
        (args : List (String × JsonValue)) (e : String),
        getStringArg args "target" ≠ "" →
        Latency.Run env.exec (getStringArg args "target") (getStringArg args "mode")
          = Except.error e →
        (handleRequest env db
            { method := "tools/call"
              params := RawParams.decoded { name := "latency_check", arguments := args }
              id := id }).fst
          = some (createErrorResponse id ("Latency check failed: " ++ e)))
    ∧ (∀ (env : HandlerEnv) (db : Option CacheDB) (id : JsonId)
        (args : List (String × JsonValue)),
        getStringArg args "target" = "" →
        (handleRequest env db
            { method := "tools/call"
              params := RawParams.decoded { name := "latency_check", arguments := args }
              id := id }).fst
          = some (createErrorResponse id "Error: Missing target argument")) := by
  have hcall : ∀ (env : HandlerEnv) (db : Option CacheDB) (id : JsonId)
      (params : CallToolParams),
      handleRequest env db
          { method := "tools/call", params := RawParams.decoded params, id := id }
        = handleToolCall env db id params := by
    intro env db id params
    simp [handleRequest]
  refine ⟨?_, ?_, ?_, ?_⟩
  · intro env db id params hname
    rw [hcall]
    rcases hname with h | h | h | h | h <;> simp only [handleToolCall, h]
    · cases env.getStats with
      | error e => exact ⟨_, rfl, createError_shape id _⟩
      | ok output => exact ⟨_, rfl, createSuccess_shape id _⟩
    · simp only [show ("latency_check" : String) = "system_stats" ↔ False from by simp,
        if_false]
      by_cases ht : getStringArg params.arguments "target" = ""
      · rw [if_pos ht]
        exact ⟨_, rfl, createError_shape id _⟩
      · rw [if_neg ht]
        cases Latency.Run env.exec (getStringArg params.arguments "target")
            (getStringArg params.arguments "mode") with
        | error e => exact ⟨_, rfl, createError_shape id _⟩
        | ok v => exact ⟨_, rfl, createSuccess_shape id _⟩
    · simp only [show ("traceroute" : String) = "system_stats" ↔ False from by simp,
        show ("traceroute" : String) = "latency_check" ↔ False from by simp, if_false]
      by_cases ht : getStringArg params.arguments "target" = ""
      · rw [if_pos ht]
        exact ⟨_, rfl, createError_shape id _⟩
      · rw [if_neg ht]
        rcases Traceroute.Run env.isIP env.exec (getStringArg params.arguments "target")
          with ⟨output, _ | e⟩
        · exact ⟨_, rfl, createSuccess_shape id _⟩
        · exact ⟨_, rfl, createError_shape id _⟩
    · simp only [show ("read_records" : String) = "system_stats" ↔ False from by simp,
        show ("read_records" : String) = "latency_check" ↔ False from by simp,
        show ("read_records" : String) = "traceroute" ↔ False from by simp, if_false]
      by_cases ht : getStringArg params.arguments "tool" = ""
      · rw [if_pos ht]
        exact ⟨_, rfl, createError_shape id _⟩
      · rw [if_neg ht]
        cases Cache.QueryRecords db (getStringArg params.arguments "tool")
            (getStringArg params.arguments "start_time")
            (getStringArg params.arguments "end_time")
            (getStringArg params.arguments "target") with
        | error e => exact ⟨_, rfl, createError_shape id _⟩
        | ok records => exact ⟨_, rfl, createSuccess_shape id _⟩
    · simp only [show ("kill_process" : String) = "system_stats" ↔ False from by simp,
        show ("kill_process" : String) = "latency_check" ↔ False from by simp,
        show ("kill_process" : String) = "traceroute" ↔ False from by simp,
        show ("kill_process" : String) = "read_records" ↔ False from by simp, if_false]
      by_cases hp : extractPid params.arguments = 0
      · rw [if_pos hp]
        exact ⟨_, rfl, createError_shape id _⟩
      · rw [if_neg hp]
        cases env.kill (extractPid params.arguments) with
        | some e => exact ⟨_, rfl, createError_shape id _⟩
        | none => exact ⟨_, rfl, createSuccess_shape id _⟩
  · intro env db id args output e ht hrun
    rw [hcall]
    simp only [handleToolCall]
    rw [hrun]
    simp [ht]
  · intro env db id args e ht hrun
    rw [hcall]
    simp only [handleToolCall]
    rw [hrun]
    simp [ht]
  · intro env db id args ht
    rw [hcall]
    simp only [handleToolCall]
    simp [ht]

/-- C4 (witness): the four parts instantiated — a failing `system_stats`
gatherer still yields a single-text result; a failing traceroute run, a
failing ping run, and a missing target argument each yield the documented
`isError` diagnostics. -/
theorem C4_witness :
    (∃ resp, (handleRequest
        { isIP := fun _ => true
          exec := fun _ => { output := "", failed := false, ctxTimedOut := false, errMsg := "" }
          getStats := Except.error "boom"
          kill := fun _ => none
          now := "t" }
        none
        { method := "tools/call"
          params := RawParams.decoded { name := "system_stats", arguments := [] }
          id := JsonId.num 5 }).fst
      = some resp ∧ isSingleTextResult (JsonId.num 5) resp)
    ∧ (handleRequest
        { isIP := fun _ => true
          exec := fun _ =>
            { output := "out", failed := true, ctxTimedOut := false, errMsg := "exit status 1" }
          getStats := Except.ok ""
          kill := fun _ => none
          now := "t" }
        none
        { method := "tools/call"
          params := RawParams.decoded
            { name := "traceroute", arguments := [("target", JsonValue.str "8.8.8.8")] }
          id := JsonId.num 6 }).fst
      = some (createErrorResponse (JsonId.num 6)
          ("Traceroute execution failed: " ++ "traceroute failed: exit status 1"
            ++ "\nOutput:\n" ++ "out"))
    ∧ (handleRequest
        { isIP := fun _ => true
          exec := fun _ =>
            { output := "", failed := true, ctxTimedOut := false, errMsg := "exit status 2" }
          getStats := Except.ok ""
          kill := fun _ => none
          now := "t" }
        none
        { method := "tools/call"
          params := RawParams.decoded
            { name := "latency_check"
              arguments := [("target", JsonValue.str "8.8.8.8"),
                            ("mode", JsonValue.str "quick")] }
          id := JsonId.num 7 }).fst
      = some (createErrorResponse (JsonId.num 7)
          ("Latency check failed: " ++ "ping failed: exit status 2"))
    ∧ (handleRequest
        { isIP := fun _ => true
          exec := fun _ => { output := "", failed := false, ctxTimedOut := false, errMsg := "" }
          getStats := Except.ok ""
          kill := fun _ => none
          now := "t" }
        none
        { method := "tools/call"
          params := RawParams.decoded { name := "latency_check", arguments := [] }
          id := JsonId.num 8 }).fst
      = some (createErrorResponse (JsonId.num 8) "Error: Missing target argument") := by
  refine ⟨?_, ?_, ?_, ?_⟩
  · exact C4_handler_failures_are_results.1 _ none (JsonId.num 5)
      { name := "system_stats", arguments := [] } (Or.inl rfl)
  · exact C4_handler_failures_are_results.2.1 _ none (JsonId.num 6)
      [("target", JsonValue.str "8.8.8.8")] "out" "traceroute failed: exit status 1"
      (by decide) rfl
  · exact C4_handler_failures_are_results.2.2.1 _ none (JsonId.num 7)
      [("target", JsonValue.str "8.8.8.8"), ("mode", JsonValue.str "quick")]
      "ping failed: exit status 2" (by decide) rfl
  · exact C4_handler_failures_are_results.2.2.2 _ none (JsonId.num 8) [] rfl

/-- C5 (counterexample): the claim says the timestamp filter is the
half-open interval [start, end); but the SQL is `timestamp <= ?` on the end
bound: a record whose timestamp equals the end bound is returned, although
it is not strictly below it. -/
theorem C5_counterexample :
    Cache.QueryRecords
        (some { latencyRecords := [{ id := 1, timestamp := "20240101000000",
                                     target := "8.8.8.8", mode := "quick", result := "out" }] })
        "latency" "20240101000000" "20240101000000" ""
      = Except.ok [QueryRow.latency { id := 1, timestamp := "20240101000000",
                                      target := "8.8.8.8", mode := "quick", result := "out" }]
    ∧ strLt "20240101000000" "20240101000000" = false := by
  exact ⟨by decide, by decide⟩

/-- C5 (amended): for a known tool the query returns exactly the stored
records of that tool's table whose timestamp lies in the *closed*
lexicographic interval [start, end] (an empty-string bound is no bound), in
timestamp-descending order. -/
theorem C5_amended (d : CacheDB) (tool startTime endTime : String)
    (rows base : List QueryRow)
    (hbase : Cache.tableRows d tool = some base)
    (hq : Cache.QueryRecords (some d) tool startTime endTime "" = Except.ok rows) :
    (∀ r, r ∈ rows ↔ r ∈ base
        ∧ (startTime = "" ∨ strLe startTime r.timestamp = true)
        ∧ (endTime = "" ∨ strLe r.timestamp endTime = true))
    ∧ List.Pairwise (fun a b => strLe b.timestamp a.timestamp = true) rows := by
  constructor
  · intro r
    rw [mem_queryRecords hbase hq r]
    simp only [Cache.matchesQuery, Bool.and_eq_true, Bool.or_eq_true, decide_eq_true_eq]
    constructor
    · rintro ⟨hb, ⟨hs, he⟩, -⟩
      exact ⟨hb, hs, he⟩
    · rintro ⟨hb, hs, he⟩
      exact ⟨hb, ⟨hs, he⟩, Or.inl (Or.inl trivial)⟩
  · exact sorted_queryRecords hbase hq

/-- C5 (amended, witness): two latency records, a start bound matching the
older one and no end bound; both rows come back, newest first. -/
theorem C5_amended_witness :
    (∀ r : QueryRow,
      r ∈ [QueryRow.latency { id := 2, timestamp := "20240102000000",
                              target := "b", mode := "quick", result := "y" },
           QueryRow.latency { id := 1, timestamp := "20240101000000",
                              target := "a", mode := "quick", result := "x" }]
        ↔ r ∈ [QueryRow.latency { id := 1, timestamp := "20240101000000",
                                  target := "a", mode := "quick", result := "x" },
                QueryRow.latency { id := 2, timestamp := "20240102000000",
                                   target := "b", mode := "quick", result := "y" }]
          ∧ ("20240101000000" = "" ∨ strLe "20240101000000" r.timestamp = true)
          ∧ ("" = "" ∨ strLe r.timestamp "" = true))
    ∧ List.Pairwise (fun a b => strLe b.timestamp a.timestamp = true)
        [QueryRow.latency { id := 2, timestamp := "20240102000000",
                            target := "b", mode := "quick", result := "y" },
         QueryRow.latency { id := 1, timestamp := "20240101000000",
                            target := "a", mode := "quick", result := "x" }] :=
  C5_amended
    { latencyRecords := [{ id := 1, timestamp := "20240101000000",
                           target := "a", mode := "quick", result := "x" },
                         { id := 2, timestamp := "20240102000000",
                           target := "b", mode := "quick", result := "y" }] }
    "latency" "20240101000000" ""
    [QueryRow.latency { id := 2, timestamp := "20240102000000",
                        target := "b", mode := "quick", result := "y" },
     QueryRow.latency { id := 1, timestamp := "20240101000000",
                        target := "a", mode := "quick", result := "x" }]
    [QueryRow.latency { id := 1, timestamp := "20240101000000",
                        target := "a", mode := "quick", result := "x" },
     QueryRow.latency { id := 2, timestamp := "20240102000000",
                        target := "b", mode := "quick", result := "y" }]
    rfl (by decide)

/-- C6 (confirmed): for each supported tool, saving an output and then
querying that tool over any interval containing the save's timestamp (for
example now-1 to now+1 seconds) returns a list containing the freshly
inserted record of that tool with that output. -/
theorem C6_save_query_roundtrip (d : CacheDB) (now target mode o startTime endTime : String)
    (h1 : strLe startTime now = true) (h2 : strLe now endTime = true) :
    (∃ rows, Cache.QueryRecords (Cache.RecordLatency (some d) now target mode o)
        "latency" startTime endTime "" = Except.ok rows
      ∧ QueryRow.latency { id := d.latencyRecords.length + 1, timestamp := now,
                           target := target, mode := mode, result := o } ∈ rows)
    ∧ (∃ rows, Cache.QueryRecords (Cache.RecordTraceroute (some d) now target o)
        "traceroute" startTime endTime "" = Except.ok rows
      ∧ QueryRow.traceroute { id := d.tracerouteRecords.length + 1, timestamp := now,
                              target := target, result := o } ∈ rows)
    ∧ (∃ rows, Cache.QueryRecords (Cache.RecordSystemStats (some d) now o)
        "system_stats" startTime endTime "" = Except.ok rows
      ∧ QueryRow.systemStats { id := d.systemStatsRecords.length + 1, timestamp := now,
                               result := o } ∈ rows) := by
  refine ⟨?_, ?_, ?_⟩
  · refine ⟨_, rfl, ?_⟩
    rw [(List.perm_insertionSort _ _).mem_iff, List.mem_filter]
    constructor
    · exact List.mem_map_of_mem _ (List.mem_append_right _ (List.mem_singleton_self _))
    · simp [Cache.matchesQuery, QueryRow.timestamp, h1, h2]
  · refine ⟨_, rfl, ?_⟩
    rw [(List.perm_insertionSort _ _).mem_iff, List.mem_filter]
    constructor
    · exact List.mem_map_of_mem _ (List.mem_append_right _ (List.mem_singleton_self _))
    · simp [Cache.matchesQuery, QueryRow.timestamp, h1, h2]
  · refine ⟨_, rfl, ?_⟩
    rw [(List.perm_insertionSort _ _).mem_iff, List.mem_filter]
    constructor
    · exact List.mem_map_of_mem _ (List.mem_append_right _ (List.mem_singleton_self _))
    · simp [Cache.matchesQuery, QueryRow.timestamp, h1, h2]

/-- C6 (witness): the round trip instantiated on an empty store at
now = 20240102030405 with the interval [now-1, now+1]. -/
theorem C6_witness :
    (∃ rows, Cache.QueryRecords
        (Cache.RecordLatency (some {}) "20240102030405" "8.8.8.8" "quick" "OUT")
        "latency" "20240102030404" "20240102030406" "" = Except.ok rows
      ∧ QueryRow.latency { id := 1, timestamp := "20240102030405",
                           target := "8.8.8.8", mode := "quick", result := "OUT" } ∈ rows)
    ∧ (∃ rows, Cache.QueryRecords
        (Cache.RecordTraceroute (some {}) "20240102030405" "8.8.8.8" "OUT")
        "traceroute" "20240102030404" "20240102030406" "" = Except.ok rows
      ∧ QueryRow.traceroute { id := 1, timestamp := "20240102030405",
                              target := "8.8.8.8", result := "OUT" } ∈ rows)
    ∧ (∃ rows, Cache.QueryRecords
        (Cache.RecordSystemStats (some {}) "20240102030405" "OUT")
        "system_stats" "20240102030404" "20240102030406" "" = Except.ok rows
      ∧ QueryRow.systemStats { id := 1, timestamp := "20240102030405",
                               result := "OUT" } ∈ rows) := by
  have h := C6_save_query_roundtrip {} "20240102030405" "8.8.8.8" "quick" "OUT"
    "20240102030404" "20240102030406" (by decide) (by decide)
  exact h

/-- C7 (counterexample): the claim promises a `-32000` "Request timed out
after 300s" JSON-RPC *error* on every transport when the deadline expires;
but `serveStdio` has no timeout branch: a traceroute killed by the expired
context surfaces as the handler's own `isError` result (`error = none`), and
no `-32000` frame is ever produced on stdio. -/
theorem C7_counterexample :
    (stdioStep
        { isIP := fun _ => true
          exec := fun _ =>
            { output := "partial", failed := true, ctxTimedOut := true
              errMsg := "signal: killed" }
          getStats := Except.ok ""
          kill := fun _ => none
          now := "t" }
        none
        { method := "tools/call"
          params := RawParams.decoded
            { name := "traceroute", arguments := [("target", JsonValue.str "8.8.8.8")] }
          id := JsonId.num 9 }).fst
      = some (createErrorResponse (JsonId.num 9)
          "Traceroute execution failed: traceroute timed out: signal: killed\nOutput:\npartial")
    ∧ (createErrorResponse (JsonId.num 9)
        "Traceroute execution failed: traceroute timed out: signal: killed\nOutput:\npartial").error
      = none := by
  exact ⟨by decide, rfl⟩

/-- C7 (amended): both transports run tool calls under a 300-second context;
on the SSE transport an expired deadline yields exactly one `-32000`
"Request timed out after 300s" error response for the request's id, while on
stdio no timeout response is synthesized — the dispatcher's own response
(for a cancelled traceroute, an `isError` result, not a JSON-RPC error) is
what the client receives. -/
theorem C7_amended :
    (stdioTimeoutSeconds = 300 ∧ sseTimeoutSeconds = 300)
    ∧ (∀ (req : JSONRPCRequest) (handlerResp : Option JSONRPCResponse),
        sseWorkerEmit req handlerResp WorkerOutcome.deadlineExpired
          = some (errorResponse req.id (-32000) "Request timed out after 300s"))
    ∧ (∀ (env : HandlerEnv) (db : Option CacheDB) (id : JsonId)
        (args : List (String × JsonValue)) (target output em : String),
        getStringArg args "target" = target →
        target ≠ "" →
        validateTarget env.isIP target = Except.ok () →
        env.exec { prog := "traceroute", args := Traceroute.args target }
          = { output := output, failed := true, ctxTimedOut := true, errMsg := em } →
        (stdioStep env db
            { method := "tools/call"
              params := RawParams.decoded { name := "traceroute", arguments := args }
              id := id }).fst
          = some (createErrorResponse id
              ("Traceroute execution failed: " ++ ("traceroute timed out: " ++ em)
                ++ "\nOutput:\n" ++ output))
          ∧ (createErrorResponse id
              ("Traceroute execution failed: " ++ ("traceroute timed out: " ++ em)
                ++ "\nOutput:\n" ++ output)).error = none) := by
  refine ⟨⟨rfl, rfl⟩, fun req handlerResp => rfl, ?_⟩
  intro env db id args target output em htarget hne hval hexec
  have hrun : Traceroute.Run env.isIP env.exec target
      = (output, some ("traceroute timed out: " ++ em)) := by
    unfold Traceroute.Run
    rw [hval, hexec]
    rfl
  refine ⟨?_, rfl⟩
  simp only [stdioStep, handleRequest, handleToolCall]
  rw [htarget, hrun]
  simp [hne]

/-- C7 (amended, witness): the SSE timeout frame for a concrete request, and
the stdio behaviour for a concrete timed-out traceroute. -/
theorem C7_amended_witness :
    sseWorkerEmit
        { method := "tools/call", params := RawParams.missing, id := JsonId.num 10 }
        none WorkerOutcome.deadlineExpired
      = some (errorResponse (JsonId.num 10) (-32000) "Request timed out after 300s")
    ∧ ((stdioStep
        { isIP := fun _ => true
          exec := fun _ =>
            { output := "o", failed := true, ctxTimedOut := true, errMsg := "killed" }
          getStats := Except.ok ""
          kill := fun _ => none
          now := "t" }
        none
        { method := "tools/call"
          params := RawParams.decoded
            { name := "traceroute", arguments := [("target", JsonValue.str "1.1.1.1")] }
          id := JsonId.num 11 }).fst
      = some (createErrorResponse (JsonId.num 11)
          ("Traceroute execution failed: " ++ ("traceroute timed out: " ++ "killed")
            ++ "\nOutput:\n" ++ "o"))
      ∧ (createErrorResponse (JsonId.num 11)
          ("Traceroute execution failed: " ++ ("traceroute timed out: " ++ "killed")
            ++ "\nOutput:\n" ++ "o")).error = none) := by
  constructor
  · exact C7_amended.2.1
      { method := "tools/call", params := RawParams.missing, id := JsonId.num 10 } none
  · exact C7_amended.2.2
      { isIP := fun _ => true
        exec := fun _ =>
          { output := "o", failed := true, ctxTimedOut := true, errMsg := "killed" }
        getStats := Except.ok ""
        kill := fun _ => none
        now := "t" }
      none (JsonId.num 11) [("target", JsonValue.str "1.1.1.1")] "1.1.1.1" "o" "killed"
      rfl (by decide) (by decide) rfl

/-- C9 (counterexample): the claim says `start_time` is required and
`tool_name` optional; the code is the reverse: supplying only a start time is
rejected with "Error: Missing tool argument", while supplying only the tool
succeeds (empty time bounds query the whole table). -/
theorem C9_counterexample :
    (handleRequest
        { isIP := fun _ => true
          exec := fun _ => { output := "", failed := false, ctxTimedOut := false, errMsg := "" }
          getStats := Except.ok ""
          kill := fun _ => none
          now := "t" }
        (some {})
        { method := "tools/call"
          params := RawParams.decoded
            { name := "read_records"
              arguments := [("start_time", JsonValue.str "20240101000000")] }
          id := JsonId.num 3 }).fst
      = some (createErrorResponse (JsonId.num 3) "Error: Missing tool argument")
    ∧ (handleRequest
        { isIP := fun _ => true
          exec := fun _ => { output := "", failed := false, ctxTimedOut := false, errMsg := "" }
          getStats := Except.ok ""
          kill := fun _ => none
          now := "t" }
        (some {})
        { method := "tools/call"
          params := RawParams.decoded
            { name := "read_records", arguments := [("tool", JsonValue.str "latency")] }
          id := JsonId.num 4 }).fst
      = some (createSuccessResponse (JsonId.num 4) "null") := by
  exact ⟨by decide, by decide⟩

/-- C9 (amended): for `read_records` the `tool` argument is required — a call
without it is rejected as an `isError` result — while `start_time` (and
`end_time`, `target`) are optional: with a valid tool the query runs over
that single tool's table whatever time bounds are present; the advertised
input schema also lists exactly `tool` as required. -/
theorem C9_amended :
    (∀ (env : HandlerEnv) (db : Option CacheDB) (id : JsonId)
        (args : List (String × JsonValue)),
        getStringArg args "tool" = "" →
        (handleRequest env db
            { method := "tools/call"
              params := RawParams.decoded { name := "read_records", arguments := args }
              id := id }).fst
          = some (createErrorResponse id "Error: Missing tool argument"))
    ∧ (∀ (env : HandlerEnv) (d : CacheDB) (id : JsonId)
        (args : List (String × JsonValue)),
        getStringArg args "tool" = "latency" →
        ∃ rows, Cache.QueryRecords (some d) "latency"
            (getStringArg args "start_time") (getStringArg args "end_time")
            (getStringArg args "target") = Except.ok rows
          ∧ (handleRequest env (some d)
              { method := "tools/call"
                params := RawParams.decoded { name := "read_records", arguments := args }
                id := id }).fst
            = some (createSuccessResponse id (marshalRecords rows)))
    ∧ ((toolsCatalog.find? (fun t => t.name == "read_records")).map
        (fun t => t.inputSchema.required) = some ["tool"]) := by
  refine ⟨?_, ?_, by decide⟩
  · intro env db id args htool
    simp only [handleRequest, handleToolCall]
    rw [htool]
    simp
  · intro env d id args htool
    refine ⟨_, rfl, ?_⟩
    simp only [handleRequest, handleToolCall]
    rw [htool]
    have hq : Cache.QueryRecords (some d) "latency"
        (getStringArg args "start_time") (getStringArg args "end_time")
        (getStringArg args "target")
        = Except.ok (List.insertionSort Cache.orderDesc
            (((d.latencyRecords.map QueryRow.latency)).filter
              (Cache.matchesQuery "latency" (getStringArg args "start_time")
                (getStringArg args "end_time") (getStringArg args "target")))) := rfl
    rw [hq]
    simp

/-- C9 (amended, witness): the three parts at concrete inputs — a call with
only `start_time` is rejected, a call with only `tool` succeeds against an
empty store, and the catalog requires exactly `tool`. -/
theorem C9_amended_witness :
    (handleRequest
        { isIP := fun _ => true
          exec := fun _ => { output := "", failed := false, ctxTimedOut := false, errMsg := "" }
          getStats := Except.ok ""
          kill := fun _ => none
          now := "t" }
        none
        { method := "tools/call"
          params := RawParams.decoded
            { name := "read_records"
              arguments := [("start_time", JsonValue.str "20240101000000")] }
          id := JsonId.num 12 }).fst
      = some (createErrorResponse (JsonId.num 12) "Error: Missing tool argument")
    ∧ (∃ rows, Cache.QueryRecords (some {}) "latency"
          (getStringArg [(("tool" : String), JsonValue.str "latency")] "start_time")
          (getStringArg [(("tool" : String), JsonValue.str "latency")] "end_time")
          (getStringArg [(("tool" : String), JsonValue.str "latency")] "target")
        = Except.ok rows
      ∧ (handleRequest
          { isIP := fun _ => true
            exec := fun _ =>
              { output := "", failed := false, ctxTimedOut := false, errMsg := "" }
            getStats := Except.ok ""
            kill := fun _ => none
            now := "t" }
          (some {})
          { method := "tools/call"
            params := RawParams.decoded
              { name := "read_records"
                arguments := [(("tool" : String), JsonValue.str "latency")] }
            id := JsonId.num 13 }).fst
        = some (createSuccessResponse (JsonId.num 13) (marshalRecords rows))) := by
  constructor
  · exact C9_amended.1
      { isIP := fun _ => true
        exec := fun _ => { output := "", failed := false, ctxTimedOut := false, errMsg := "" }
        getStats := Except.ok ""
        kill := fun _ => none
        now := "t" }
      none (JsonId.num 12) [("start_time", JsonValue.str "20240101000000")] rfl
  · exact C9_amended.2.1
      { isIP := fun _ => true
        exec := fun _ => { output := "", failed := false, ctxTimedOut := false, errMsg := "" }
        getStats := Except.ok ""
        kill := fun _ => none
        now := "t" }
      {} (JsonId.num 13) [("tool", JsonValue.str "latency")] rfl

/-- C10 (counterexample): the target filter is SQLite `LIKE`, which compares
ASCII case-insensitively: querying latency records for target "server"
returns a record whose stored target is "Server-A", although "server" is not
a (case-sensitive) substring of it. -/
theorem C10_counterexample :
    Cache.QueryRecords
        (some { latencyRecords := [{ id := 1, timestamp := "20240101000000",
                                     target := "Server-A", mode := "quick", result := "x" }] })
        "latency" "" "" "server"
      = Except.ok [QueryRow.latency { id := 1, timestamp := "20240101000000",
                                      target := "Server-A", mode := "quick", result := "x" }]
    ∧ ¬ strContains "Server-A" "server" := by
  exact ⟨by decide, by decide⟩

/-- C10 (amended): for the latency and traceroute tools a non-empty target
argument filters to exactly the rows whose target column matches the SQLite
pattern `%arg%` — substring up to ASCII case folding, with `%`/`_` in the
argument acting as wildcards; for `system_stats` the target argument is
ignored. -/
theorem C10_amended :
    (∀ (d : CacheDB) (arg : String) (rows : List QueryRow),
        arg ≠ "" →
        Cache.QueryRecords (some d) "latency" "" "" arg = Except.ok rows →
        ∀ r, r ∈ rows ↔ r ∈ d.latencyRecords.map QueryRow.latency
            ∧ strLike ("%" ++ arg ++ "%") r.targetCol = true)
    ∧ (∀ (d : CacheDB) (arg : String) (rows : List QueryRow),
        arg ≠ "" →
        Cache.QueryRecords (some d) "traceroute" "" "" arg = Except.ok rows →
        ∀ r, r ∈ rows ↔ r ∈ d.tracerouteRecords.map QueryRow.traceroute
            ∧ strLike ("%" ++ arg ++ "%") r.targetCol = true)
    ∧ (∀ (d : CacheDB) (s e arg : String),
        Cache.QueryRecords (some d) "system_stats" s e arg
          = Cache.QueryRecords (some d) "system_stats" s e "") := by
  refine ⟨?_, ?_, ?_⟩
  · intro d arg rows harg hq r
    have hbase : Cache.tableRows d "latency"
        = some (d.latencyRecords.map QueryRow.latency) := rfl
    rw [mem_queryRecords hbase hq r]
    simp [Cache.matchesQuery, harg]
  · intro d arg rows harg hq r
    have hbase : Cache.tableRows d "traceroute"
        = some (d.tracerouteRecords.map QueryRow.traceroute) := rfl
    rw [mem_queryRecords hbase hq r]
    simp [Cache.matchesQuery, harg]
  · intro d s e arg
    have hfil : Cache.matchesQuery "system_stats" s e arg
        = Cache.matchesQuery "system_stats" s e "" := by
      funext r
      simp [Cache.matchesQuery]
    unfold Cache.QueryRecords
    rw [hfil]

/-- C10 (amended, witness): the LIKE filter at a concrete store ("server"
matches "Server-A" but not "db-host"), and target-insensitivity of a
concrete `system_stats` query. -/
theorem C10_amended_witness :
    (∀ r, r ∈ [QueryRow.latency { id := 1, timestamp := "20240101000000",
                                  target := "Server-A", mode := "quick", result := "x" }]
        ↔ r ∈ List.map QueryRow.latency
              [{ id := 1, timestamp := "20240101000000",
                 target := "Server-A", mode := "quick", result := "x" },
               { id := 2, timestamp := "20240102000000",
                 target := "db-host", mode := "quick", result := "y" }]
          ∧ strLike ("%" ++ "server" ++ "%") r.targetCol = true)
    ∧ Cache.QueryRecords (some { systemStatsRecords :=
          [{ id := 1, timestamp := "20240101000000", result := "s" }] })
        "system_stats" "" "" "ignored"
      = Cache.QueryRecords (some { systemStatsRecords :=
          [{ id := 1, timestamp := "20240101000000", result := "s" }] })
        "system_stats" "" "" "" := by
  constructor
  · exact C10_amended.1
      { latencyRecords := [{ id := 1, timestamp := "20240101000000",
                             target := "Server-A", mode := "quick", result := "x" },
                           { id := 2, timestamp := "20240102000000",
                             target := "db-host", mode := "quick", result := "y" }] }
      "server"
      [QueryRow.latency { id := 1, timestamp := "20240101000000",
                          target := "Server-A", mode := "quick", result := "x" }]
      (by decide) (by decide)
  · exact C10_amended.2.2
      { systemStatsRecords := [{ id := 1, timestamp := "20240101000000", result := "s" }] }
      "" "" "ignored"

/-- C8 (confirmed): on the standard-mode Linux ping output the parser yields
avg 14.567 ms, jitter 0.987 ms, loss 0%, and on the 100%-loss summary it
yields loss 100% with the `avg_latency` field left at its absent (zero)
value, in both cases without error. -/
theorem C8_parse_ping_output :
    parsePingOutput
        ("PING 8.8.8.8 (8.8.8.8) 56(84) bytes of data.\n64 bytes from 8.8.8.8: icmp_seq=1 ttl=115 time=14.1 ms\n\n--- 8.8.8.8 ping statistics ---\n10 packets transmitted, 10 received, 0% packet loss, time 9014ms\nrtt min/avg/max/mdev = 14.123/14.567/15.890/0.987 ms")
        "standard"
      = Except.ok { avgLatency := "14.567 ms", jitter := "0.987 ms", packetLoss := "0%" }
    ∧ parsePingOutput "10 packets transmitted, 0 received, 100% packet loss, time 9014ms"
        "standard"
      = Except.ok { avgLatency := "", jitter := "", packetLoss := "100%" } := by
  exact ⟨rfl, rfl⟩

end McpNetutil
